import Mathlib

/-!
Verification of the maintenance-management dashboard front end
(`src/pages/Dashboard.tsx`, `src/pages/Index.tsx`).

The two source files are shallowly embedded below:

* `checkUser` models the on-mount session check and profile lookup of the
  Dashboard view, including its `try`/`catch`/`finally` structure.
* `handleLogout` models the sign-out handler.
* `renderContent` / `renderDashboard` model the JSX returned by the
  Dashboard component as data: a header (welcome text and optional role
  badge) and a list of navigation cards, each card a title with a list of
  labelled buttons and their navigation targets.
* `IndexRender` models the static landing page of `Index.tsx`.

External-gateway outcomes (session retrieval, profile lookup, sign-out)
are passed in as explicit values, mirroring the awaited calls in source.
-/

namespace MaintainHero

/-- The part of a Supabase session the Dashboard consumes: the user
identifier and email (`session.user.id`, `session.user.email`). -/
structure Session where
  userId : String
  email : String
deriving DecidableEq, Repr

/-- The `UserProfile` interface of `Dashboard.tsx`.  The TypeScript type
restricts `user_type` to a union of three literals, but the value arrives
from the database at runtime, so it is embedded as an arbitrary string
compared literally, exactly as the source compares it. -/
structure UserProfile where
  id : String
  email : String
  full_name : String
  user_type : String
deriving DecidableEq, Repr

/-- Outcome of `supabase.auth.getSession()` as seen by the `try` block:
either the awaited promise rejects (caught by `catch`), or it resolves
with a session or with no session. -/
inductive SessionResult where
  | throws
  | ok (s : Option Session)
deriving DecidableEq, Repr

/-- Outcome of the profile query
`supabase.from("profiles").select("*").eq("id", …).single()`:
the awaited call may reject (caught by the outer `catch`), resolve with
an `error` field (logged, profile not stored), or resolve with data. -/
inductive FetchResult where
  | throws
  | err
  | ok (p : UserProfile)
deriving DecidableEq, Repr

/-- Outcome of `supabase.auth.signOut()` inside the `try` of `handleLogout`:
either it resolves, or it rejects and control moves to the `catch`. -/
inductive SignOutResult where
  | ok
  | throws
deriving DecidableEq, Repr

/-- Component-local state of the Dashboard: the three `useState` hooks
`user`, `profile`, `loading`. -/
structure DashState where
  user : Option Session
  profile : Option UserProfile
  loading : Bool
deriving DecidableEq, Repr

/-- Initial hook values: `useState(null)`, `useState(null)`, `useState(true)`. -/
def initialState : DashState :=
  { user := none, profile := none, loading := true }

/-- A toast notification as issued through `useToast`. -/
structure Toast where
  title : String
  description : String
  destructive : Bool
deriving DecidableEq, Repr

/-- Observable outcome of one run of `checkUser`: the final component
state together with the effects performed (paths passed to `navigate`,
whether the profile query was issued, how many errors were logged via
`console.error`). -/
structure CheckOutcome where
  state : DashState
  navigations : List String
  profileRequested : Bool
  loggedErrors : Nat
deriving DecidableEq, Repr

/-- Shallow embedding of `checkUser` (`Dashboard.tsx` lines 28–56),
run from the initial mount state.

* `getSession` rejecting is caught: the error is logged, and `finally`
  still sets `loading` to `false`; no navigation happens.
* No session: `navigate("/login")` then `return`; the `finally` clause
  sets `loading` to `false`; the profile query is never issued.
* Session present: `setUser`, then the profile query; a rejected query is
  caught and logged, a resolved `error` is logged, and only a clean
  result is stored with `setProfile`.  `finally` clears `loading`. -/
def checkUser (sr : SessionResult) (fp : Session → FetchResult) : CheckOutcome :=
  match sr with
  | .throws =>
      { state := { user := none, profile := none, loading := false }
        navigations := []
        profileRequested := false
        loggedErrors := 1 }
  | .ok none =>
      { state := { user := none, profile := none, loading := false }
        navigations := ["/login"]
        profileRequested := false
        loggedErrors := 0 }
  | .ok (some s) =>
      match fp s with
      | .throws =>
          { state := { user := some s, profile := none, loading := false }
            navigations := []
            profileRequested := true
            loggedErrors := 1 }
      | .err =>
          { state := { user := some s, profile := none, loading := false }
            navigations := []
            profileRequested := true
            loggedErrors := 1 }
      | .ok p =>
          { state := { user := some s, profile := some p, loading := false }
            navigations := []
            profileRequested := true
            loggedErrors := 0 }

/-- Observable outcome of one run of `handleLogout`: the component state
after the handler (no setter is called in either branch), the paths
passed to `navigate`, and the toasts shown. -/
structure LogoutOutcome where
  state : DashState
  navigations : List String
  toasts : List Toast
deriving DecidableEq, Repr

/-- The success toast of `handleLogout`. -/
def logoutSuccessToast : Toast :=
  { title := "Logout realizado"
    description := "Você foi desconectado com sucesso"
    destructive := false }

/-- The failure toast of `handleLogout` (`variant: "destructive"`). -/
def logoutErrorToast : Toast :=
  { title := "Erro"
    description := "Erro ao fazer logout"
    destructive := true }

/-- Shallow embedding of `handleLogout` (`Dashboard.tsx` lines 58–73).
If `signOut` resolves, the handler navigates to `/login` and shows the
success toast; if it rejects, the `catch` shows the error toast and the
handler does nothing else.  Neither branch touches component state. -/
def handleLogout (st : DashState) (r : SignOutResult) : LogoutOutcome :=
  match r with
  | .ok =>
      { state := st
        navigations := ["/login"]
        toasts := [logoutSuccessToast] }
  | .throws =>
      { state := st
        navigations := []
        toasts := [logoutErrorToast] }

/-- A navigation card of the dashboard grid: its title and its buttons,
each a label paired with the `navigate` target of its `onClick`. -/
structure CardView where
  title : String
  buttons : List (String × String)
deriving DecidableEq, Repr

/-- The non-loading render of the Dashboard: the welcome text, the
optional role badge, and the grid of cards in source order. -/
structure DashboardContent where
  welcome : String
  badge : Option String
  cards : List CardView
deriving DecidableEq, Repr

/-- A render of the Dashboard component: the loading placeholder or the
full content. -/
inductive Render where
  | loading
  | content (c : DashboardContent)
deriving DecidableEq, Repr

/-- The gate `profile?.user_type === "admin"` of the Personnel card. -/
def isAdmin (profile : Option UserProfile) : Bool :=
  match profile with
  | some p => p.user_type == "admin"
  | none => false

/-- The gate `profile?.user_type === "admin" || profile?.user_type === "operator"`
of the "Cadastrar Máquina" button and the Requesters card. -/
def isAdminOrOperator (profile : Option UserProfile) : Bool :=
  match profile with
  | some p => p.user_type == "admin" || p.user_type == "operator"
  | none => false

/-- The badge text ternary of lines 93–94: `admin ↦ Administrador`,
`operator ↦ Operador`, anything else `Requisitante`. -/
def badgeText (t : String) : String :=
  if t == "admin" then "Administrador"
  else if t == "operator" then "Operador"
  else "Requisitante"

/-- The guard `profile && (Badge …)`: the badge is rendered only when a
profile is stored. -/
def badgeOf (profile : Option UserProfile) : Option String :=
  match profile with
  | some p => some (badgeText p.user_type)
  | none => none

/-- `Bem-vindo, {profile?.full_name || user?.email}`: JavaScript `||`
falls through on the falsy empty string, and a missing value renders as
nothing, embedded as the empty string. -/
def welcomeText (user : Option Session) (profile : Option UserProfile) : String :=
  "Bem-vindo, " ++
    match profile with
    | some p =>
        if p.full_name == "" then
          (match user with | some u => u.email | none => "")
        else p.full_name
    | none => match user with | some u => u.email | none => ""

/-- The Work Orders card (lines 106–128). -/
def workOrdersCard : CardView :=
  { title := "Ordens de Serviço"
    buttons := [("Ver Ordens de Serviço", "/work-orders"),
                ("Nova Ordem de Serviço", "/work-orders/new")] }

/-- The Backlog card (lines 131–144). -/
def backlogCard : CardView :=
  { title := "Backlog"
    buttons := [("Ver Backlog", "/backlog")] }

/-- The Machines card (lines 147–171); the "Cadastrar Máquina" button is
conditional on the admin-or-operator gate. -/
def machinesCard (profile : Option UserProfile) : CardView :=
  { title := "Máquinas"
    buttons := ("Gerenciar Máquinas", "/machines") ::
      (if isAdminOrOperator profile then [("Cadastrar Máquina", "/machines/new")] else []) }

/-- The Personnel card (lines 175–197), rendered only for admins. -/
def personnelCard : CardView :=
  { title := "Pessoal"
    buttons := [("Gerenciar Pessoal", "/personnel"),
                ("Cadastrar Técnico", "/personnel/new")] }

/-- The Requesters card (lines 202–224), rendered for admin or operator. -/
def requestersCard : CardView :=
  { title := "Requisitantes"
    buttons := [("Gerenciar Requisitantes", "/requesters"),
                ("Cadastrar Requisitante", "/requesters/new")] }

/-- The Metrics card (lines 228–241). -/
def metricsCard : CardView :=
  { title := "Métricas"
    buttons := [("Ver Métricas", "/metrics")] }

/-- The grid of cards in source order, with the two conditionally
rendered cards guarded exactly as in the JSX (lines 174 and 201). -/
def dashboardCards (profile : Option UserProfile) : List CardView :=
  [workOrdersCard, backlogCard, machinesCard profile]
    ++ (if isAdmin profile then [personnelCard] else [])
    ++ (if isAdminOrOperator profile then [requestersCard] else [])
    ++ [metricsCard]

/-- The non-loading render of the Dashboard (lines 83–245) as a function
of the stored user and profile. -/
def renderContent (user : Option Session) (profile : Option UserProfile) :
    DashboardContent :=
  { welcome := welcomeText user profile
    badge := badgeOf profile
    cards := dashboardCards profile }

/-- The full render (lines 75–245): the loading placeholder while
`loading` is true, the content otherwise. -/
def renderDashboard (st : DashState) : Render :=
  if st.loading then .loading
  else .content (renderContent st.user st.profile)

/-- Whether a card with the given title appears in the content's grid. -/
def hasTile (c : DashboardContent) (title : String) : Bool :=
  c.cards.any (fun card => card.title == title)

/-- Whether a button with the given label appears on any card. -/
def hasButton (c : DashboardContent) (label : String) : Bool :=
  c.cards.any (fun card => card.buttons.any (fun b => b.1 == label))

/-- The landing page of `Index.tsx` as data: its heading and its links,
each a label paired with its `href`. -/
structure LandingView where
  heading : String
  links : List (String × String)
deriving DecidableEq, Repr

/-- Shallow embedding of the `Index` component (`Index.tsx` lines 3–22):
a constant — it takes no props, reads no state and performs no calls —
whose markup contains a single anchor, "Fazer Login", targeting
`/login`. -/
def IndexRender : LandingView :=
  { heading := "Sistema de Gerenciamento de Manutenção"
    links := [("Fazer Login", "/login")] }

/-- One full mount: run `checkUser` against the given gateway outcomes,
then render the component from the resulting state. -/
def mountRender (sr : SessionResult) (fp : Session → FetchResult) : Render :=
  renderDashboard (checkUser sr fp).state

/-- The visibility condition of the Personnel tile as the spec words it:
a profile is stored and its role is admin. -/
def specPersonnelVisible (profile : Option UserProfile) : Prop :=
  ∃ p, profile = some p ∧ p.user_type = "admin"

/-- The visibility condition of the Register Machine action and the
Requesters tile as the spec words it: a profile is stored and its role
is admin or operator. -/
def specAdminOrOperator (profile : Option UserProfile) : Prop :=
  ∃ p, profile = some p ∧ (p.user_type = "admin" ∨ p.user_type = "operator")

/-- The session of the scenario in the spec. -/
def anaSession : Session :=
  { userId := "u1", email := "a@x.com" }

/-- The profile of the scenario in the spec. -/
def anaProfile : UserProfile :=
  { id := "u1", email := "a@x.com", full_name := "Ana", user_type := "operator" }

/-- The content rendered for the scenario in the spec. -/
def anaContent : DashboardContent :=
  renderContent (some anaSession) (some anaProfile)

/-- A profile whose role string is outside the expected enumeration. -/
def ghostProfile : UserProfile :=
  { id := "g1", email := "g@x.com", full_name := "Ghost", user_type := "ghost" }

/-- C1: mounting with no session navigates to `/login`, issues no
profile request, stores neither user nor profile, and resolves loading —
for every possible profile-gateway behaviour. -/
theorem noSession_redirects_login (fp : Session → FetchResult) :
    checkUser (.ok none) fp =
      { state := { user := none, profile := none, loading := false }
        navigations := ["/login"]
        profileRequested := false
        loggedErrors := 0 } := rfl

/-- C2: sign-out with a resolving gateway navigates to `/login` and
shows the success toast; a rejecting gateway produces no navigation and
the destructive error toast; component state is unchanged in both
branches. -/
theorem logout_success_and_failure (st : DashState) :
    handleLogout st .ok =
      { state := st, navigations := ["/login"], toasts := [logoutSuccessToast] } ∧
    handleLogout st .throws =
      { state := st, navigations := [], toasts := [logoutErrorToast] } :=
  ⟨rfl, rfl⟩

/-- C3 counterexample: when the session check itself throws, the error
is logged (`loggedErrors = 1`) but — contrary to the claim — the view
does not redirect: `/login` is never passed to `navigate`. -/
theorem sessionThrow_no_redirect_counterexample :
    (checkUser .throws (fun _ => .err)).loggedErrors = 1 ∧
    "/login" ∉ (checkUser .throws (fun _ => .err)).navigations := by
  decide

/-- C3 amended: a throwing session check is caught and logged, no
navigation occurs, no profile request is issued, no user or profile is
stored, and loading resolves, so the view renders without session data. -/
theorem sessionThrow_logged_no_redirect (fp : Session → FetchResult) :
    checkUser .throws fp =
      { state := { user := none, profile := none, loading := false }
        navigations := []
        profileRequested := false
        loggedErrors := 1 } := rfl

/-- C4: with a valid session whose profile fetch fails (resolved error
or rejection alike), the mount renders full content, the welcome line
falls back to the session email, and the Personnel tile, Requesters tile
and Register Machine action are all hidden. -/
theorem profileFetchFail_degrades (s : Session) :
    mountRender (.ok (some s)) (fun _ => .err) =
      .content (renderContent (some s) none) ∧
    mountRender (.ok (some s)) (fun _ => .throws) =
      .content (renderContent (some s) none) ∧
    (renderContent (some s) none).welcome = "Bem-vindo, " ++ s.email ∧
    hasTile (renderContent (some s) none) "Pessoal" = false ∧
    hasTile (renderContent (some s) none) "Requisitantes" = false ∧
    hasButton (renderContent (some s) none) "Cadastrar Máquina" = false :=
  ⟨rfl, rfl, rfl, rfl, rfl, rfl⟩

/-- C5: a mount with a valid session and an admin profile renders the
Personnel card, the Requesters card and the Register Machine action. -/
theorem admin_sees_privileged_tiles (s : Session) (p : UserProfile)
    (h : p.user_type = "admin") :
    mountRender (.ok (some s)) (fun _ => .ok p) =
      .content (renderContent (some s) (some p)) ∧
    hasTile (renderContent (some s) (some p)) "Pessoal" = true ∧
    hasTile (renderContent (some s) (some p)) "Requisitantes" = true ∧
    hasButton (renderContent (some s) (some p)) "Cadastrar Máquina" = true := by
  obtain ⟨i, e, n, t⟩ := p
  dsimp only at h
  subst h
  exact ⟨rfl, rfl, rfl, rfl⟩

/-- C5 witness at a concrete session and admin profile. -/
theorem admin_sees_privileged_tiles_witness :
    mountRender (.ok (some ⟨"u1", "a@x.com"⟩))
        (fun _ => .ok ⟨"u1", "a@x.com", "Ana", "admin"⟩) =
      .content (renderContent (some ⟨"u1", "a@x.com"⟩)
        (some ⟨"u1", "a@x.com", "Ana", "admin"⟩)) ∧
    hasTile (renderContent (some ⟨"u1", "a@x.com"⟩)
      (some ⟨"u1", "a@x.com", "Ana", "admin"⟩)) "Pessoal" = true ∧
    hasTile (renderContent (some ⟨"u1", "a@x.com"⟩)
      (some ⟨"u1", "a@x.com", "Ana", "admin"⟩)) "Requisitantes" = true ∧
    hasButton (renderContent (some ⟨"u1", "a@x.com"⟩)
      (some ⟨"u1", "a@x.com", "Ana", "admin"⟩)) "Cadastrar Máquina" = true :=
  admin_sees_privileged_tiles ⟨"u1", "a@x.com"⟩
    ⟨"u1", "a@x.com", "Ana", "admin"⟩ rfl

/-- C6: a mount with a valid session and a requester profile hides the
Personnel tile, the Requesters tile and the Register Machine action,
while the Work Orders, Backlog, Machines and Metrics tiles are present. -/
theorem requester_sees_base_tiles (s : Session) (p : UserProfile)
    (h : p.user_type = "requester") :
    mountRender (.ok (some s)) (fun _ => .ok p) =
      .content (renderContent (some s) (some p)) ∧
    hasTile (renderContent (some s) (some p)) "Pessoal" = false ∧
    hasTile (renderContent (some s) (some p)) "Requisitantes" = false ∧
    hasButton (renderContent (some s) (some p)) "Cadastrar Máquina" = false ∧
    hasTile (renderContent (some s) (some p)) "Ordens de Serviço" = true ∧
    hasTile (renderContent (some s) (some p)) "Backlog" = true ∧
    hasTile (renderContent (some s) (some p)) "Máquinas" = true ∧
    hasTile (renderContent (some s) (some p)) "Métricas" = true := by
  obtain ⟨i, e, n, t⟩ := p
  dsimp only at h
  subst h
  exact ⟨rfl, rfl, rfl, rfl, rfl, rfl, rfl, rfl⟩

/-- C6 witness at a concrete session and requester profile. -/
theorem requester_sees_base_tiles_witness :
    mountRender (.ok (some ⟨"u2", "b@x.com"⟩))
        (fun _ => .ok ⟨"u2", "b@x.com", "Bia", "requester"⟩) =
      .content (renderContent (some ⟨"u2", "b@x.com"⟩)
        (some ⟨"u2", "b@x.com", "Bia", "requester"⟩)) ∧
    hasTile (renderContent (some ⟨"u2", "b@x.com"⟩)
      (some ⟨"u2", "b@x.com", "Bia", "requester"⟩)) "Pessoal" = false ∧
    hasTile (renderContent (some ⟨"u2", "b@x.com"⟩)
      (some ⟨"u2", "b@x.com", "Bia", "requester"⟩)) "Requisitantes" = false ∧
    hasButton (renderContent (some ⟨"u2", "b@x.com"⟩)
      (some ⟨"u2", "b@x.com", "Bia", "requester"⟩)) "Cadastrar Máquina" = false ∧
    hasTile (renderContent (some ⟨"u2", "b@x.com"⟩)
      (some ⟨"u2", "b@x.com", "Bia", "requester"⟩)) "Ordens de Serviço" = true ∧
    hasTile (renderContent (some ⟨"u2", "b@x.com"⟩)
      (some ⟨"u2", "b@x.com", "Bia", "requester"⟩)) "Backlog" = true ∧
    hasTile (renderContent (some ⟨"u2", "b@x.com"⟩)
      (some ⟨"u2", "b@x.com", "Bia", "requester"⟩)) "Máquinas" = true ∧
    hasTile (renderContent (some ⟨"u2", "b@x.com"⟩)
      (some ⟨"u2", "b@x.com", "Bia", "requester"⟩)) "Métricas" = true :=
  requester_sees_base_tiles ⟨"u2", "b@x.com"⟩
    ⟨"u2", "b@x.com", "Bia", "requester"⟩ rfl

/-- C7: the spec scenario — session present, profile Ana the operator —
renders the welcome line "Bem-vindo, Ana" with the badge "Operador", the
Work Orders, Backlog, Machines (with Register Machine), Requesters (with
its register action) and Metrics tiles, and no Personnel tile. -/
theorem scenario_ana_operator :
    mountRender (.ok (some anaSession)) (fun _ => .ok anaProfile) =
      .content anaContent ∧
    anaContent.welcome = "Bem-vindo, Ana" ∧
    anaContent.badge = some "Operador" ∧
    hasTile anaContent "Ordens de Serviço" = true ∧
    hasTile anaContent "Backlog" = true ∧
    hasTile anaContent "Máquinas" = true ∧
    hasButton anaContent "Cadastrar Máquina" = true ∧
    hasTile anaContent "Requisitantes" = true ∧
    hasButton anaContent "Cadastrar Requisitante" = true ∧
    hasTile anaContent "Métricas" = true ∧
    hasTile anaContent "Pessoal" = false := by
  decide

/-- C8: the landing render is a constant of no inputs, and its markup
offers exactly one navigation affordance, the link targeting `/login`. -/
theorem index_single_login_link :
    IndexRender.links = [("Fazer Login", "/login")] ∧
    IndexRender.links.length = 1 ∧
    IndexRender.links.map Prod.snd = ["/login"] := by
  decide

/-- C9: in every non-loading render, the Personnel tile is present iff a
profile is stored with role admin, and the Register Machine action and
the Requesters tile are present iff a profile is stored with role admin
or operator; a profile whose role lies outside the three expected values
sees none of the privileged tiles and is shown the badge "Requisitante". -/
theorem role_gating_invariant (u : Option Session) (profile : Option UserProfile) :
    renderDashboard { user := u, profile := profile, loading := false } =
      .content (renderContent u profile) ∧
    (hasTile (renderContent u profile) "Pessoal" = true ↔
      specPersonnelVisible profile) ∧
    (hasButton (renderContent u profile) "Cadastrar Máquina" = true ↔
      specAdminOrOperator profile) ∧
    (hasTile (renderContent u profile) "Requisitantes" = true ↔
      specAdminOrOperator profile) ∧
    (∀ p, profile = some p →
      p.user_type ≠ "admin" → p.user_type ≠ "operator" → p.user_type ≠ "requester" →
      hasTile (renderContent u profile) "Pessoal" = false ∧
      hasButton (renderContent u profile) "Cadastrar Máquina" = false ∧
      hasTile (renderContent u profile) "Requisitantes" = false ∧
      (renderContent u profile).badge = some "Requisitante") := by
  refine ⟨rfl, ?_, ?_, ?_, ?_⟩
  · cases profile with
    | none => simp [hasTile, renderContent, dashboardCards, isAdmin, isAdminOrOperator,
        machinesCard, workOrdersCard, backlogCard, personnelCard, requestersCard,
        metricsCard, specPersonnelVisible]
    | some p =>
        by_cases hA : p.user_type = "admin" <;>
        by_cases hO : p.user_type = "operator" <;>
        simp [hasTile, renderContent, dashboardCards, isAdmin, isAdminOrOperator,
          machinesCard, workOrdersCard, backlogCard, personnelCard, requestersCard,
          metricsCard, specPersonnelVisible, hA, hO]
  · cases profile with
    | none => simp [hasButton, renderContent, dashboardCards, isAdmin, isAdminOrOperator,
        machinesCard, workOrdersCard, backlogCard, personnelCard, requestersCard,
        metricsCard, specAdminOrOperator]
    | some p =>
        by_cases hA : p.user_type = "admin" <;>
        by_cases hO : p.user_type = "operator" <;>
        simp [hasButton, renderContent, dashboardCards, isAdmin, isAdminOrOperator,
          machinesCard, workOrdersCard, backlogCard, personnelCard, requestersCard,
          metricsCard, specAdminOrOperator, hA, hO]
  · cases profile with
    | none => simp [hasTile, renderContent, dashboardCards, isAdmin, isAdminOrOperator,
        machinesCard, workOrdersCard, backlogCard, personnelCard, requestersCard,
        metricsCard, specAdminOrOperator]
    | some p =>
        by_cases hA : p.user_type = "admin" <;>
        by_cases hO : p.user_type = "operator" <;>
        simp [hasTile, renderContent, dashboardCards, isAdmin, isAdminOrOperator,
          machinesCard, workOrdersCard, backlogCard, personnelCard, requestersCard,
          metricsCard, specAdminOrOperator, hA, hO]
  · rintro p rfl hA hO _hR
    refine ⟨?_, ?_, ?_, ?_⟩ <;>
    simp [hasTile, hasButton, renderContent, dashboardCards, isAdmin, isAdminOrOperator,
      machinesCard, workOrdersCard, backlogCard, personnelCard, requestersCard,
      metricsCard, badgeOf, badgeText, hA, hO]

/-- C9 witness: at a concrete profile with the unexpected role "ghost",
no privileged tile is shown and the rendered badge is "Requisitante". -/
theorem role_gating_invariant_witness :
    hasTile (renderContent none (some ghostProfile)) "Pessoal" = false ∧
    hasButton (renderContent none (some ghostProfile)) "Cadastrar Máquina" = false ∧
    hasTile (renderContent none (some ghostProfile)) "Requisitantes" = false ∧
    (renderContent none (some ghostProfile)).badge = some "Requisitante" :=
  (role_gating_invariant none (some ghostProfile)).2.2.2.2 ghostProfile rfl
    (by decide) (by decide) (by decide)

/-- C10: in every non-loading render with no stored profile, no badge
element is rendered at all, while the Work Orders, Backlog, Machines and
Metrics tiles are present. -/
theorem noProfile_no_badge (u : Option Session) :
    renderDashboard { user := u, profile := none, loading := false } =
      .content (renderContent u none) ∧
    (renderContent u none).badge = none ∧
    hasTile (renderContent u none) "Ordens de Serviço" = true ∧
    hasTile (renderContent u none) "Backlog" = true ∧
    hasTile (renderContent u none) "Máquinas" = true ∧
    hasTile (renderContent u none) "Métricas" = true :=
  ⟨rfl, rfl, rfl, rfl, rfl, rfl⟩

end MaintainHero
